import Mathlib

/-!
Shallow embedding of the `conference-rag` administrative scripts:
`scripts/06_add_question_cache.py` (config load, migration submission over
HTTP, convergence-verification retry loop, exit code) and
`scripts/query_tables.py` (smoke queries under the anonymous credential).

External effects (HTTP POST, supabase query execution, sleeping) are
modelled by oracle functions passed in as parameters, and every run
produces a trace of the external events it issued, in order.
-/

namespace ConferenceRag

/-- The shape of a supabase PostgREST read request as assembled by the
builder chain `client.table(t).select(cols, count=...).limit(n)`. -/
structure QueryRequest where
  table : String
  columns : String
  count : Option String
  limitN : Option Nat
deriving Repr, DecidableEq

/-- One external event issued by a script run. `read` carries the
credential key of the client that issued it and the query it executed;
`sleep` carries the slept duration in seconds. -/
inductive Event where
  | post (url : String) (bearer : String)
  | read (key : String) (req : QueryRequest)
  | sleep (units : Nat)
deriving Repr, DecidableEq

/-- A row returned by the query layer: a JSON object, modelled as an
association list. -/
abbrev Row := List (String × String)

/-- What `execute()` returns: `result.data` (the rows) and
`result.count` (present only when a count was requested). -/
structure QueryResponse where
  data : List Row
  count : Option Nat
deriving Repr, DecidableEq

/-- The response to an HTTP POST: `resp.status_code` and `resp.text`. -/
structure HttpResponse where
  status_code : Nat
  text : String
deriving Repr, DecidableEq

/-- A supabase client, as produced by `create_client(url, key)`. -/
structure Client where
  url : String
  key : String
deriving Repr, DecidableEq

/-- `create_client(url, key)`. -/
def create_client (url key : String) : Client := ⟨url, key⟩

/-- A request under construction: the client it will run on plus the
request shape accumulated so far. -/
structure RequestBuilder where
  client : Client
  req : QueryRequest
deriving Repr, DecidableEq

/-- `client.table(name)`: starts a request against `name`; the column
selection defaults to all columns and no count or limit is set yet. -/
def Client.table (c : Client) (name : String) : RequestBuilder :=
  ⟨c, ⟨name, "*", none, none⟩⟩

/-- `.select(cols, count=mode)`: sets the selected columns and the
(optional) count mode. -/
def RequestBuilder.select (b : RequestBuilder) (cols : String)
    (countMode : Option String) : RequestBuilder :=
  ⟨b.client, { b.req with columns := cols, count := countMode }⟩

/-- `.limit(n)`: bounds the number of returned rows. -/
def RequestBuilder.limit (b : RequestBuilder) (n : Nat) : RequestBuilder :=
  ⟨b.client, { b.req with limitN := some n }⟩

/-- Python's `x or 0` applied to an optional count: `None` and `0` are
falsy and yield `0`; any other number is returned as is. -/
def pyOrZero : Option Nat → Nat
  | none => 0
  | some n => if n == 0 then 0 else n

/-- Python's string slicing `s[:n]`: the first `n` characters. -/
def strSlice (s : String) (n : Nat) : String := String.mk (s.data.take n)

/-- The configuration bound at module level by
`scripts/06_add_question_cache.py`: `SUPABASE_URL` from the public file
and the three secrets from the secret file. -/
structure Config where
  SUPABASE_URL : String
  SUPABASE_SERVICE_KEY : String
  SUPABASE_ACCESS_TOKEN : String
  SUPABASE_PROJECT_REF : String
deriving Repr, DecidableEq

/-- The failures the module-level configuration load can raise before
any network activity: an absent or unreadable file (`FileNotFoundError`
or a JSON decode error) or a missing required key (`KeyError`). The
spec groups all of these under the name `ConfigError`. -/
inductive ConfigError where
  | fileMissing (name : String)
  | keyMissing (name : String)
deriving Repr, DecidableEq

/-- The module-level configuration load of
`scripts/06_add_question_cache.py`, lines 22-30. Each configuration
file is `none` when it is absent or unreadable, otherwise the flat
key-value mapping it holds. Lookups happen in source order:
`SUPABASE_URL`, then `SUPABASE_SERVICE_KEY`, `SUPABASE_ACCESS_TOKEN`,
`SUPABASE_PROJECT_REF`. -/
def loadConfig (pub sec : Option (List (String × String))) :
    Except ConfigError Config :=
  match pub with
  | none => Except.error (ConfigError.fileMissing "config.public.json")
  | some p =>
    match sec with
    | none => Except.error (ConfigError.fileMissing "config.secret.json")
    | some s =>
      match p.lookup "SUPABASE_URL" with
      | none => Except.error (ConfigError.keyMissing "SUPABASE_URL")
      | some url =>
        match s.lookup "SUPABASE_SERVICE_KEY" with
        | none => Except.error (ConfigError.keyMissing "SUPABASE_SERVICE_KEY")
        | some svc =>
          match s.lookup "SUPABASE_ACCESS_TOKEN" with
          | none => Except.error (ConfigError.keyMissing "SUPABASE_ACCESS_TOKEN")
          | some tok =>
            match s.lookup "SUPABASE_PROJECT_REF" with
            | none => Except.error (ConfigError.keyMissing "SUPABASE_PROJECT_REF")
            | some ref => Except.ok ⟨url, svc, tok, ref⟩

/-- The SQL batch submitted by the migration script: an opaque text
blob from the calling procedure's point of view, submitted whole as one
request. -/
def schema_sql : String :=
  "\n-- Create question_cache table\nCREATE TABLE IF NOT EXISTS question_cache (\n    id UUID PRIMARY KEY DEFAULT gen_random_uuid(),\n    user_id UUID REFERENCES auth.users(id) ON DELETE CASCADE,\n    question TEXT NOT NULL,\n    question_embedding VECTOR(1536),\n    ai_answer TEXT,\n    context_talk_ids UUID[],  -- Array of talk IDs used to generate answer\n    created_at TIMESTAMPTZ DEFAULT NOW(),\n    updated_at TIMESTAMPTZ DEFAULT NOW()\n);\n\n-- Index for exact question lookup (fastest)\nCREATE INDEX IF NOT EXISTS idx_question_cache_question \nON question_cache(question);\n\n-- Index for embedding similarity search (find similar questions)\nCREATE INDEX IF NOT EXISTS idx_question_cache_embedding \nON question_cache USING ivfflat (question_embedding vector_cosine_ops)\nWITH (lists = 100);\n\n-- Index for user queries\nCREATE INDEX IF NOT EXISTS idx_question_cache_user_id \nON question_cache(user_id);\n\n-- Index for created_at (to find recent queries)\nCREATE INDEX IF NOT EXISTS idx_question_cache_created_at \nON question_cache(created_at DESC);\n\n-- Enable Row Level Security\nALTER TABLE question_cache ENABLE ROW LEVEL SECURITY;\n\n-- RLS: Users can read their own cached questions\nDROP POLICY IF EXISTS \"Users can read own questions\" ON question_cache;\nCREATE POLICY \"Users can read own questions\"\nON question_cache FOR SELECT\nTO authenticated\nUSING (auth.uid() = user_id);\n\n-- RLS: Users can insert their own questions\nDROP POLICY IF EXISTS \"Users can insert own questions\" ON question_cache;\nCREATE POLICY \"Users can insert own questions\"\nON question_cache FOR INSERT\nTO authenticated\nWITH CHECK (auth.uid() = user_id);\n\n-- RLS: Users can update their own questions\nDROP POLICY IF EXISTS \"Users can update own questions\" ON question_cache;\nCREATE POLICY \"Users can update own questions\"\nON question_cache FOR UPDATE\nTO authenticated\nUSING (auth.uid() = user_id)\nWITH CHECK (auth.uid() = user_id);\n\n-- Create function to find similar cached questions\nCREATE OR REPLACE FUNCTION find_similar_questions(\n    query_embedding VECTOR(1536),\n    similarity_threshold FLOAT DEFAULT 0.95,\n    max_results INT DEFAULT 5\n)\nRETURNS TABLE (\n    id UUID,\n    question TEXT,\n    question_embedding VECTOR(1536),\n    ai_answer TEXT,\n    similarity FLOAT,\n    created_at TIMESTAMPTZ\n)\nLANGUAGE sql STABLE\nAS $$\n    SELECT\n        question_cache.id,\n        question_cache.question,\n        question_cache.question_embedding,\n        question_cache.ai_answer,\n        1 - (question_cache.question_embedding <=> query_embedding) AS similarity,\n        question_cache.created_at\n    FROM question_cache\n    WHERE question_cache.question_embedding IS NOT NULL\n        AND question_cache.ai_answer IS NOT NULL\n        AND (1 - (question_cache.question_embedding <=> query_embedding)) >= similarity_threshold\n    ORDER BY question_cache.question_embedding <=> query_embedding\n    LIMIT max_results;\n$$;\n"

/-- The schema-management endpoint URL, addressed by project ref. -/
def migrationUrl (cfg : Config) : String :=
  "https://api.supabase.com/v1/projects/" ++ cfg.SUPABASE_PROJECT_REF ++
    "/database/query"

/-- The Authorization header value: a bearer-style management token. -/
def migrationBearer (cfg : Config) : String :=
  "Bearer " ++ cfg.SUPABASE_ACCESS_TOKEN

/-- The client the verification loop reads through:
`create_client(SUPABASE_URL, SUPABASE_SERVICE_KEY)`. -/
def verifyClient (cfg : Config) : Client :=
  create_client cfg.SUPABASE_URL cfg.SUPABASE_SERVICE_KEY

/-- An oracle standing for the query layer: given the attempt index,
the client and the request, it either returns a response or raises
(models the `except Exception` branch). -/
abbrev QueryOracle := Nat → Client → QueryRequest → Except String QueryResponse

/-- An oracle standing for `requests.post`: given URL, bearer token and
the SQL payload, returns the HTTP response. -/
abbrev PostOracle := String → String → String → HttpResponse

/-- Outcome of the verification retry loop. `returnValue` is what the
`return` statement inside the loop produced; `readSucceeded`
distinguishes a verified read from the soft-warning downgrade;
`reportedCount` is the count printed on the success line. -/
structure VerifyResult where
  returnValue : Bool
  readSucceeded : Bool
  reportedCount : Option Nat
  trace : List Event
deriving Repr, DecidableEq

/-- The verification retry loop `for attempt in range(5)` of
`create_question_cache_table`, recursing over the list of remaining
attempt indices. Each iteration issues
`client.table('question_cache').select('id', count='exact').limit(1).execute()`;
on success it returns `True` at once with `result.count or 0`; on an
exception it sleeps 3 seconds and retries when `attempt < 4`, and on
the final attempt downgrades to a soft warning, still returning `True`.
The `[]` case is Python's fall-through `return None` (falsy), which
`range(5)` never reaches. -/
def verifyLoop (oracle : QueryOracle) (client : Client) :
    List Nat → VerifyResult
  | [] =>
    { returnValue := false, readSucceeded := false, reportedCount := none,
      trace := [] }
  | attempt :: rest =>
    let b := ((client.table "question_cache").select "id" (some "exact")).limit 1
    match oracle attempt b.client b.req with
    | Except.ok result =>
      { returnValue := true, readSucceeded := true,
        reportedCount := some (pyOrZero result.count),
        trace := [Event.read b.client.key b.req] }
    | Except.error _ =>
      if attempt < 4 then
        let v := verifyLoop oracle client rest
        { v with
          trace := Event.read b.client.key b.req :: Event.sleep 3 :: v.trace }
      else
        { returnValue := true, readSucceeded := false, reportedCount := none,
          trace := [Event.read b.client.key b.req] }

/-- Outcome of one run of `create_question_cache_table`. `returnValue`
is the function's boolean result, `migrationOk` whether the submission
success banner (vs the failure banner) was printed, `printedFailure`
the status code and truncated body printed on rejection, and
`printedCount` the verified row count printed on a successful read. -/
structure RunResult where
  returnValue : Bool
  migrationOk : Bool
  printedFailure : Option (Nat × String)
  printedCount : Option Nat
  trace : List Event
deriving Repr, DecidableEq

/-- `create_question_cache_table()`: POST the SQL batch once; on status
200 or 201 build the service-key client and run the verification loop;
on any other status print the code and `resp.text[:500]` and return
`False`. -/
def create_question_cache_table (cfg : Config) (post : PostOracle)
    (oracle : QueryOracle) : RunResult :=
  let resp := post (migrationUrl cfg) (migrationBearer cfg) schema_sql
  if resp.status_code = 200 ∨ resp.status_code = 201 then
    let v := verifyLoop oracle (verifyClient cfg) (List.range 5)
    { returnValue := v.returnValue, migrationOk := true,
      printedFailure := none, printedCount := v.reportedCount,
      trace := Event.post (migrationUrl cfg) (migrationBearer cfg) :: v.trace }
  else
    { returnValue := false, migrationOk := false,
      printedFailure := some (resp.status_code, strSlice resp.text 500),
      printedCount := none,
      trace := [Event.post (migrationUrl cfg) (migrationBearer cfg)] }

/-- The `__main__` block: `sys.exit(1)` when
`create_question_cache_table()` is falsy, otherwise the script prints
its closing banner and exits 0. -/
def mainExitCode (r : RunResult) : Nat :=
  if r.returnValue then 0 else 1

/-- A whole script run: the module-level configuration load (which
issues no network traffic), then `create_question_cache_table`. A
configuration failure aborts before the function body ever runs. -/
def scriptRun (pub sec : Option (List (String × String)))
    (post : PostOracle) (oracle : QueryOracle) :
    Except ConfigError RunResult :=
  (loadConfig pub sec).map fun cfg => create_question_cache_table cfg post oracle

/-- The events a whole script run issued: none when it aborted during
the configuration load (lines 22-30 touch only local files). -/
def scriptTrace : Except ConfigError RunResult → List Event
  | Except.error _ => []
  | Except.ok r => r.trace

/-- Whether an event is the migration POST. -/
def Event.isPost : Event → Bool
  | Event.post _ _ => true
  | _ => false

/-- Whether an event is a verification or smoke-query read. -/
def Event.isRead : Event → Bool
  | Event.read _ _ => true
  | _ => false

/-- Whether an event is a sleep. -/
def Event.isSleep : Event → Bool
  | Event.sleep _ => true
  | _ => false

/-- Seconds slept by an event (0 for non-sleeps). -/
def Event.sleepUnits : Event → Nat
  | Event.sleep u => u
  | _ => 0

/-- Number of POST events in a trace. -/
def postCount (tr : List Event) : Nat := (tr.filter Event.isPost).length

/-- Number of read events in a trace. -/
def readCount (tr : List Event) : Nat := (tr.filter Event.isRead).length

/-- Number of sleep events in a trace. -/
def sleepCount (tr : List Event) : Nat := (tr.filter Event.isSleep).length

/-- Total seconds slept across a trace. -/
def totalSleep (tr : List Event) : Nat := (tr.map Event.sleepUnits).sum

/-- Number of network calls (POSTs and reads) in a trace. -/
def networkCalls (tr : List Event) : Nat :=
  (tr.filter fun e => e.isPost || e.isRead).length

/-- The exact read request the Convergence Verifier issues on every
attempt: select the single `id` column, exact count, limit 1, against
`question_cache`. -/
def verificationRequest : QueryRequest :=
  ⟨"question_cache", "id", some "exact", some 1⟩

/-- `scripts/query_tables.py`: build the anonymous-key client, read at
most 5 rows of `page_views`, print `len(result.data)`, then the same
against `sentence_embeddings`. Any raised error propagates, ending the
script; the pair of printed row counts is returned otherwise. The
oracle here is not attempt-indexed: this script never retries. -/
def query_tables_run (url anonKey : String)
    (oracle : Client → QueryRequest → Except String QueryResponse) :
    List Event × Except String (Nat × Nat) :=
  let client := create_client url anonKey
  let b1 := ((client.table "page_views").select "*" none).limit 5
  match oracle b1.client b1.req with
  | Except.error e => ([Event.read b1.client.key b1.req], Except.error e)
  | Except.ok r1 =>
    let b2 := ((client.table "sentence_embeddings").select "*" none).limit 5
    match oracle b2.client b2.req with
    | Except.error e =>
      ([Event.read b1.client.key b1.req, Event.read b2.client.key b2.req],
        Except.error e)
    | Except.ok r2 =>
      ([Event.read b1.client.key b1.req, Event.read b2.client.key b2.req],
        Except.ok (r1.data.length, r2.data.length))

/-- The request `query_tables.py` issues against `page_views`. -/
def pageViewsRequest : QueryRequest := ⟨"page_views", "*", none, some 5⟩

/-- The request `query_tables.py` issues against `sentence_embeddings`. -/
def sentenceEmbeddingsRequest : QueryRequest :=
  ⟨"sentence_embeddings", "*", none, some 5⟩

/-! ## Helper lemmas about the verification loop -/

/-- The builder chain of the verification read assembles exactly
`verificationRequest` on the given client. -/
theorem verify_builder_eq (c : Client) :
    ((c.table "question_cache").select "id" (some "exact")).limit 1 =
      (⟨c, verificationRequest⟩ : RequestBuilder) := rfl

/-- Every event the verification loop emits is either the fixed
verification read under the client's key, or a 3-second sleep. -/
theorem verifyLoop_trace_shape (oracle : QueryOracle) (client : Client) :
    ∀ l : List Nat, ∀ e ∈ (verifyLoop oracle client l).trace,
      e = Event.read client.key verificationRequest ∨ e = Event.sleep 3 := by
  intro l
  induction l with
  | nil => simp [verifyLoop]
  | cons a rest ih =>
    simp only [verifyLoop, verify_builder_eq]
    cases h : oracle a client verificationRequest with
    | ok r => simp
    | error err =>
      simp only
      by_cases ha : a < 4
      · simp only [if_pos ha, List.mem_cons]
        rintro e (rfl | rfl | he)
        · exact Or.inl rfl
        · exact Or.inr rfl
        · exact ih e he
      · simp [if_neg ha]

/-- The verification loop never issues a POST. -/
theorem verifyLoop_postCount (oracle : QueryOracle) (client : Client) :
    ∀ l : List Nat, postCount (verifyLoop oracle client l).trace = 0 := by
  intro l
  induction l with
  | nil => simp [verifyLoop, postCount]
  | cons a rest ih =>
    simp only [verifyLoop, verify_builder_eq]
    cases h : oracle a client verificationRequest with
    | ok r => simp [postCount, Event.isPost]
    | error err =>
      simp only
      by_cases ha : a < 4
      · simp only [if_pos ha]
        simpa [postCount, Event.isPost] using ih
      · simp [if_neg ha, postCount, Event.isPost]

/-! ## Concrete fixtures used by the witnesses -/

/-- A concrete configuration record. -/
def cfgW : Config :=
  ⟨"https://example.supabase.co", "service-key", "access-token", "projref"⟩

/-- A POST oracle whose endpoint accepts the migration with 200. -/
def post200 : PostOracle := fun _ _ _ => ⟨200, "ok"⟩

/-- A POST oracle whose endpoint rejects the migration with 500. -/
def post500 : PostOracle := fun _ _ _ => ⟨500, "Internal Server Error"⟩

/-- A query layer that raises on every attempt. -/
def failOracle : QueryOracle := fun _ _ _ => Except.error "cache not refreshed"

/-- A query layer that succeeds on every attempt with an exact count of
7. -/
def okOracle : QueryOracle := fun _ _ _ => Except.ok ⟨[], some 7⟩

/-- A query layer that raises on attempts 1-4 (indices 0-3) and
succeeds on attempt 5 (index 4). -/
def lateOracle : QueryOracle := fun i _ _ =>
  if i < 4 then Except.error "cache not refreshed" else Except.ok ⟨[], some 0⟩

/-- A query layer that succeeds but reports no count. -/
def noCountOracle : QueryOracle := fun _ _ _ => Except.ok ⟨[], none⟩

/-- Five (empty) rows, as returned for `page_views` by the smoke stub. -/
def smokeRows : List Row := [[], [], [], [], []]

/-- A stub query layer for the smoke demo: 5 rows for `page_views`,
none for any other table. -/
def smokeOracle : Client → QueryRequest → Except String QueryResponse :=
  fun _ req =>
    if req.table == "page_views" then Except.ok ⟨smokeRows, none⟩
    else Except.ok ⟨[], none⟩

/-- If the read raises on every attempt before `i` and succeeds at
attempt `i < 5`, the loop stops at attempt `i`: it reports a verified
success carrying `result.count or 0`, has issued exactly `i + 1` reads
and slept exactly `i` times. -/
theorem verifyLoop_first_success (oracle : QueryOracle) (client : Client)
    (i : Nat) (r : QueryResponse) (hi : i < 5)
    (hfail : ∀ j < i, ∃ err,
      oracle j client verificationRequest = Except.error err)
    (hok : oracle i client verificationRequest = Except.ok r) :
    (verifyLoop oracle client (List.range 5)).readSucceeded = true ∧
    (verifyLoop oracle client (List.range 5)).reportedCount =
      some (pyOrZero r.count) ∧
    readCount (verifyLoop oracle client (List.range 5)).trace = i + 1 ∧
    sleepCount (verifyLoop oracle client (List.range 5)).trace = i ∧
    (verifyLoop oracle client (List.range 5)).returnValue = true := by
  have hrange : List.range 5 = [0, 1, 2, 3, 4] := rfl
  rw [hrange]
  interval_cases i
  · simp [verifyLoop, verify_builder_eq, hok, readCount, sleepCount,
      Event.isRead, Event.isSleep]
  · obtain ⟨e0, h0⟩ := hfail 0 (by omega)
    simp [verifyLoop, verify_builder_eq, h0, hok, readCount, sleepCount,
      Event.isRead, Event.isSleep]
  · obtain ⟨e0, h0⟩ := hfail 0 (by omega)
    obtain ⟨e1, h1⟩ := hfail 1 (by omega)
    simp [verifyLoop, verify_builder_eq, h0, h1, hok, readCount, sleepCount,
      Event.isRead, Event.isSleep]
  · obtain ⟨e0, h0⟩ := hfail 0 (by omega)
    obtain ⟨e1, h1⟩ := hfail 1 (by omega)
    obtain ⟨e2, h2⟩ := hfail 2 (by omega)
    simp [verifyLoop, verify_builder_eq, h0, h1, h2, hok, readCount,
      sleepCount, Event.isRead, Event.isSleep]
  · obtain ⟨e0, h0⟩ := hfail 0 (by omega)
    obtain ⟨e1, h1⟩ := hfail 1 (by omega)
    obtain ⟨e2, h2⟩ := hfail 2 (by omega)
    obtain ⟨e3, h3⟩ := hfail 3 (by omega)
    simp [verifyLoop, verify_builder_eq, h0, h1, h2, h3, hok, readCount,
      sleepCount, Event.isRead, Event.isSleep]

/-- Python's `x or 0` on an optional count agrees with
`Option.getD · 0`. -/
theorem pyOrZero_eq_getD (c : Option Nat) : pyOrZero c = c.getD 0 := by
  cases c with
  | none => rfl
  | some n => cases n <;> simp [pyOrZero]

/-! ## Claim theorems -/

/-- C1: when the migration submission is accepted (status 200 or 201)
but all 5 verification read attempts raise, the run still reports
overall success: `create_question_cache_table` returns `True` (soft
warning only) and the process exits with code 0, not 1. -/
theorem C1_soft_warning_still_success (cfg : Config) (post : PostOracle)
    (oracle : QueryOracle)
    (haccept :
      (post (migrationUrl cfg) (migrationBearer cfg) schema_sql).status_code = 200 ∨
      (post (migrationUrl cfg) (migrationBearer cfg) schema_sql).status_code = 201)
    (hfail : ∀ i, ∃ err,
      oracle i (verifyClient cfg) verificationRequest = Except.error err) :
    (create_question_cache_table cfg post oracle).returnValue = true ∧
    mainExitCode (create_question_cache_table cfg post oracle) = 0 := by
  obtain ⟨e0, h0⟩ := hfail 0
  obtain ⟨e1, h1⟩ := hfail 1
  obtain ⟨e2, h2⟩ := hfail 2
  obtain ⟨e3, h3⟩ := hfail 3
  obtain ⟨e4, h4⟩ := hfail 4
  have hrange : List.range 5 = [0, 1, 2, 3, 4] := rfl
  have hret :
      (verifyLoop oracle (verifyClient cfg) (List.range 5)).returnValue = true := by
    rw [hrange]
    simp [verifyLoop, verify_builder_eq, h0, h1, h2, h3, h4]
  simp only [create_question_cache_table]
  rcases haccept with h | h <;>
    simp [h, mainExitCode, hret]

/-- Witness for C1: accepted submission, all 5 reads raise, yet the run
returns `True` and exits 0. -/
theorem C1_soft_warning_still_success_witness :
    (create_question_cache_table cfgW post200 failOracle).returnValue = true ∧
    mainExitCode (create_question_cache_table cfgW post200 failOracle) = 0 :=
  C1_soft_warning_still_success cfgW post200 failOracle (Or.inl rfl)
    (fun _ => ⟨"cache not refreshed", rfl⟩)

/-- C2: a 200 or 201 from the schema-management endpoint is reported as
success; any other status is reported as a failure carrying that status
code and the body truncated to at most 500 characters, and the process
exits with code 1. -/
theorem C2_status_code_dispatch (cfg : Config) (post : PostOracle)
    (oracle : QueryOracle) (resp : HttpResponse)
    (hresp : post (migrationUrl cfg) (migrationBearer cfg) schema_sql = resp) :
    (resp.status_code = 200 ∨ resp.status_code = 201 →
      (create_question_cache_table cfg post oracle).migrationOk = true ∧
      (create_question_cache_table cfg post oracle).printedFailure = none) ∧
    (resp.status_code ≠ 200 → resp.status_code ≠ 201 →
      (create_question_cache_table cfg post oracle).migrationOk = false ∧
      (create_question_cache_table cfg post oracle).printedFailure =
        some (resp.status_code, strSlice resp.text 500) ∧
      (strSlice resp.text 500).length ≤ 500 ∧
      mainExitCode (create_question_cache_table cfg post oracle) = 1) := by
  constructor
  · intro hacc
    simp only [create_question_cache_table, hresp]
    rcases hacc with h | h <;> simp [h]
  · intro h200 h201
    have hlen : (strSlice resp.text 500).length ≤ 500 := by
      simp only [strSlice, String.length_mk, List.length_take]
      exact Nat.min_le_left _ _
    refine ⟨?_, ?_, hlen, ?_⟩ <;>
      simp [create_question_cache_table, hresp, h200, h201, mainExitCode]

/-- Witness for C2 at a concrete 500 response. -/
theorem C2_status_code_dispatch_witness :
    ((⟨500, "Internal Server Error"⟩ : HttpResponse).status_code = 200 ∨
        (⟨500, "Internal Server Error"⟩ : HttpResponse).status_code = 201 →
      (create_question_cache_table cfgW post500 okOracle).migrationOk = true ∧
      (create_question_cache_table cfgW post500 okOracle).printedFailure = none) ∧
    ((⟨500, "Internal Server Error"⟩ : HttpResponse).status_code ≠ 200 →
      (⟨500, "Internal Server Error"⟩ : HttpResponse).status_code ≠ 201 →
      (create_question_cache_table cfgW post500 okOracle).migrationOk = false ∧
      (create_question_cache_table cfgW post500 okOracle).printedFailure =
        some ((⟨500, "Internal Server Error"⟩ : HttpResponse).status_code,
          strSlice (⟨500, "Internal Server Error"⟩ : HttpResponse).text 500) ∧
      (strSlice (⟨500, "Internal Server Error"⟩ : HttpResponse).text 500).length ≤ 500 ∧
      mainExitCode (create_question_cache_table cfgW post500 okOracle) = 1) :=
  C2_status_code_dispatch cfgW post500 okOracle ⟨500, "Internal Server Error"⟩ rfl

/-- C3: when the endpoint rejects the submission (status neither 200
nor 201), the Convergence Verifier is never invoked — the trace has
zero read events — `create_question_cache_table` returns `False` and
the run exits with code 1. -/
theorem C3_rejection_skips_verifier (cfg : Config) (post : PostOracle)
    (oracle : QueryOracle) (resp : HttpResponse)
    (hresp : post (migrationUrl cfg) (migrationBearer cfg) schema_sql = resp)
    (h200 : resp.status_code ≠ 200) (h201 : resp.status_code ≠ 201) :
    readCount (create_question_cache_table cfg post oracle).trace = 0 ∧
    (create_question_cache_table cfg post oracle).returnValue = false ∧
    mainExitCode (create_question_cache_table cfg post oracle) = 1 := by
  refine ⟨?_, ?_, ?_⟩ <;>
    simp [create_question_cache_table, hresp, h200, h201, mainExitCode,
      readCount, Event.isRead]

/-- Witness for C3 at a concrete 500 response. -/
theorem C3_rejection_skips_verifier_witness :
    readCount (create_question_cache_table cfgW post500 okOracle).trace = 0 ∧
    (create_question_cache_table cfgW post500 okOracle).returnValue = false ∧
    mainExitCode (create_question_cache_table cfgW post500 okOracle) = 1 :=
  C3_rejection_skips_verifier cfgW post500 okOracle
    ⟨500, "Internal Server Error"⟩ rfl (by decide) (by decide)

/-- C4: when the verification read raises on attempts 1-4 and succeeds
on attempt 5, the run reports overall success and the retry loop slept
exactly 12 seconds in total (4 sleeps of the fixed 3-second interval,
one after each failed non-final attempt). -/
theorem C4_late_success_sleeps_twelve (cfg : Config) (post : PostOracle)
    (oracle : QueryOracle)
    (haccept :
      (post (migrationUrl cfg) (migrationBearer cfg) schema_sql).status_code = 200 ∨
      (post (migrationUrl cfg) (migrationBearer cfg) schema_sql).status_code = 201)
    (hfail : ∀ i < 4, ∃ err,
      oracle i (verifyClient cfg) verificationRequest = Except.error err)
    (hok : ∃ r, oracle 4 (verifyClient cfg) verificationRequest = Except.ok r) :
    (create_question_cache_table cfg post oracle).returnValue = true ∧
    mainExitCode (create_question_cache_table cfg post oracle) = 0 ∧
    totalSleep (create_question_cache_table cfg post oracle).trace = 12 := by
  obtain ⟨e0, h0⟩ := hfail 0 (by omega)
  obtain ⟨e1, h1⟩ := hfail 1 (by omega)
  obtain ⟨e2, h2⟩ := hfail 2 (by omega)
  obtain ⟨e3, h3⟩ := hfail 3 (by omega)
  obtain ⟨r, h4⟩ := hok
  have hrange : List.range 5 = [0, 1, 2, 3, 4] := rfl
  have hret :
      (verifyLoop oracle (verifyClient cfg) (List.range 5)).returnValue = true := by
    rw [hrange]
    simp [verifyLoop, verify_builder_eq, h0, h1, h2, h3, h4]
  have hsleep :
      totalSleep (verifyLoop oracle (verifyClient cfg) (List.range 5)).trace = 12 := by
    rw [hrange]
    simp [verifyLoop, verify_builder_eq, h0, h1, h2, h3, h4, totalSleep,
      Event.sleepUnits]
  simp only [create_question_cache_table]
  rcases haccept with h | h <;>
    simp [h, mainExitCode, hret, totalSleep, Event.sleepUnits] <;>
    simpa [totalSleep] using hsleep

/-- Witness for C4 with a query layer failing on the first four
attempts and succeeding on the fifth. -/
theorem C4_late_success_sleeps_twelve_witness :
    (create_question_cache_table cfgW post200 lateOracle).returnValue = true ∧
    mainExitCode (create_question_cache_table cfgW post200 lateOracle) = 0 ∧
    totalSleep (create_question_cache_table cfgW post200 lateOracle).trace = 12 :=
  C4_late_success_sleeps_twelve cfgW post200 lateOracle (Or.inl rfl)
    (fun i hi => ⟨"cache not refreshed", by simp [lateOracle, hi]⟩)
    ⟨⟨[], some 0⟩, by simp [lateOracle]⟩

/-- C7: every run of the migration script issues the write-side POST
exactly once — only verification reads are ever retried, whatever the
response or the verification outcomes. -/
theorem C7_migration_posted_once (cfg : Config) (post : PostOracle)
    (oracle : QueryOracle) :
    postCount (create_question_cache_table cfg post oracle).trace = 1 := by
  simp only [create_question_cache_table]
  by_cases h :
      (post (migrationUrl cfg) (migrationBearer cfg) schema_sql).status_code = 200 ∨
      (post (migrationUrl cfg) (migrationBearer cfg) schema_sql).status_code = 201
  · simp only [if_pos h]
    simpa [postCount, Event.isPost] using
      verifyLoop_postCount oracle (verifyClient cfg) (List.range 5)
  · simp [if_neg h, postCount, Event.isPost]

/-- C5: every read the Convergence Verifier issues is exactly the
minimal query — select the single `id` column, exact count, limit 1 —
against `question_cache` through the service-key client, and the first
attempt whose read raises no error ends the loop at once with the
observed count: `i + 1` reads in total. -/
theorem C5_minimal_query_first_success (cfg : Config) (post : PostOracle)
    (oracle : QueryOracle)
    (haccept :
      (post (migrationUrl cfg) (migrationBearer cfg) schema_sql).status_code = 200 ∨
      (post (migrationUrl cfg) (migrationBearer cfg) schema_sql).status_code = 201) :
    verificationRequest =
      (⟨"question_cache", "id", some "exact", some 1⟩ : QueryRequest) ∧
    (∀ e ∈ (create_question_cache_table cfg post oracle).trace,
      e.isRead = true →
      e = Event.read cfg.SUPABASE_SERVICE_KEY verificationRequest) ∧
    (∀ i r, i < 5 →
      (∀ j < i, ∃ err,
        oracle j (verifyClient cfg) verificationRequest = Except.error err) →
      oracle i (verifyClient cfg) verificationRequest = Except.ok r →
      (create_question_cache_table cfg post oracle).printedCount =
        some (pyOrZero r.count) ∧
      readCount (create_question_cache_table cfg post oracle).trace = i + 1) := by
  have htrace : (create_question_cache_table cfg post oracle).trace =
      Event.post (migrationUrl cfg) (migrationBearer cfg) ::
        (verifyLoop oracle (verifyClient cfg) (List.range 5)).trace := by
    simp only [create_question_cache_table]
    rcases haccept with h | h <;> simp [h]
  refine ⟨rfl, ?_, ?_⟩
  · intro e he hread
    rw [htrace] at he
    rcases List.mem_cons.mp he with rfl | hmem
    · simp [Event.isRead] at hread
    · rcases verifyLoop_trace_shape oracle (verifyClient cfg) (List.range 5)
          e hmem with h' | h'
      · exact h'
      · subst h'
        simp [Event.isRead] at hread
  · intro i r hi hfj hok
    obtain ⟨hsucc, hcount, hreads, hsleeps, hret⟩ :=
      verifyLoop_first_success oracle (verifyClient cfg) i r hi hfj hok
    constructor
    · simp only [create_question_cache_table]
      rcases haccept with h | h <;> simp [h, hcount]
    · rw [htrace]
      simpa [readCount, Event.isRead] using hreads

/-- Witness for C5: accepted submission, every attempt succeeds with
count 7, so the loop ends after the very first read. -/
theorem C5_minimal_query_first_success_witness :
    (create_question_cache_table cfgW post200 okOracle).printedCount =
      some (pyOrZero (some 7)) ∧
    readCount (create_question_cache_table cfgW post200 okOracle).trace = 0 + 1 :=
  (C5_minimal_query_first_success cfgW post200 okOracle (Or.inl rfl)).2.2
    0 ⟨[], some 7⟩ (by omega) (fun j hj => absurd hj (by omega)) rfl

/-- C9: when a verification read succeeds, the count the verifier
reports is `result.count or 0` — the observed count when the query
layer returns a nonzero count, and 0 when the count is absent (`None`)
or 0 — always a number, and a missing count never makes the
verification step fail. -/
theorem C9_missing_count_defaults_to_zero (cfg : Config) (post : PostOracle)
    (oracle : QueryOracle)
    (haccept :
      (post (migrationUrl cfg) (migrationBearer cfg) schema_sql).status_code = 200 ∨
      (post (migrationUrl cfg) (migrationBearer cfg) schema_sql).status_code = 201)
    (i : Nat) (r : QueryResponse) (hi : i < 5)
    (hfail : ∀ j < i, ∃ err,
      oracle j (verifyClient cfg) verificationRequest = Except.error err)
    (hok : oracle i (verifyClient cfg) verificationRequest = Except.ok r) :
    (verifyLoop oracle (verifyClient cfg) (List.range 5)).readSucceeded = true ∧
    (create_question_cache_table cfg post oracle).printedCount =
      some (r.count.getD 0) ∧
    (create_question_cache_table cfg post oracle).returnValue = true := by
  obtain ⟨hsucc, hcount, hreads, hsleeps, hret⟩ :=
    verifyLoop_first_success oracle (verifyClient cfg) i r hi hfail hok
  rw [pyOrZero_eq_getD] at hcount
  refine ⟨hsucc, ?_, ?_⟩ <;>
    · simp only [create_question_cache_table]
      rcases haccept with h | h <;> simp [h, hcount, hret]

/-- Witness for C9 with a query layer whose response carries no count:
the report defaults to 0. -/
theorem C9_missing_count_defaults_to_zero_witness :
    (verifyLoop noCountOracle (verifyClient cfgW) (List.range 5)).readSucceeded = true ∧
    (create_question_cache_table cfgW post200 noCountOracle).printedCount =
      some ((none : Option Nat).getD 0) ∧
    (create_question_cache_table cfgW post200 noCountOracle).returnValue = true :=
  C9_missing_count_defaults_to_zero cfgW post200 noCountOracle (Or.inl rfl)
    0 ⟨[], none⟩ (by omega) (fun j hj => absurd hj (by omega)) rfl

/-- C10: whatever the query layer does, the verification loop sleeps
at most 4 times for 3 seconds each (12 seconds of blocking at most,
`totalSleep = 3 * sleepCount`), never sleeps after its final attempt
(the last emitted event is never a sleep), issues at most 5 reads, and
terminates with an explicit boolean result. -/
theorem C10_sleep_discipline (oracle : QueryOracle) (client : Client) :
    sleepCount (verifyLoop oracle client (List.range 5)).trace ≤ 4 ∧
    totalSleep (verifyLoop oracle client (List.range 5)).trace =
      3 * sleepCount (verifyLoop oracle client (List.range 5)).trace ∧
    totalSleep (verifyLoop oracle client (List.range 5)).trace ≤ 12 ∧
    readCount (verifyLoop oracle client (List.range 5)).trace ≤ 5 ∧
    (verifyLoop oracle client (List.range 5)).returnValue = true ∧
    (∀ e, (verifyLoop oracle client (List.range 5)).trace.getLast? = some e →
      e.isSleep = false) := by
  have hrange : List.range 5 = [0, 1, 2, 3, 4] := rfl
  rw [hrange]
  cases h0 : oracle 0 client verificationRequest with
  | ok r0 =>
    simp [verifyLoop, verify_builder_eq, h0, sleepCount, totalSleep,
      readCount, Event.isSleep, Event.isRead, Event.sleepUnits]
  | error e0 =>
    cases h1 : oracle 1 client verificationRequest with
    | ok r1 =>
      simp [verifyLoop, verify_builder_eq, h0, h1, sleepCount, totalSleep,
        readCount, Event.isSleep, Event.isRead, Event.sleepUnits]
    | error e1 =>
      cases h2 : oracle 2 client verificationRequest with
      | ok r2 =>
        simp [verifyLoop, verify_builder_eq, h0, h1, h2, sleepCount,
          totalSleep, readCount, Event.isSleep, Event.isRead, Event.sleepUnits]
      | error e2 =>
        cases h3 : oracle 3 client verificationRequest with
        | ok r3 =>
          simp [verifyLoop, verify_builder_eq, h0, h1, h2, h3, sleepCount,
            totalSleep, readCount, Event.isSleep, Event.isRead,
            Event.sleepUnits]
        | error e3 =>
          cases h4 : oracle 4 client verificationRequest with
          | ok r4 =>
            simp [verifyLoop, verify_builder_eq, h0, h1, h2, h3, h4,
              sleepCount, totalSleep, readCount, Event.isSleep, Event.isRead,
              Event.sleepUnits]
          | error e4 =>
            simp [verifyLoop, verify_builder_eq, h0, h1, h2, h3, h4,
              sleepCount, totalSleep, readCount, Event.isSleep, Event.isRead,
              Event.sleepUnits]

/-- Witness for C10 under the always-failing query layer (the
worst-case path: 5 reads, 4 sleeps). -/
theorem C10_sleep_discipline_witness :
    sleepCount (verifyLoop failOracle (verifyClient cfgW) (List.range 5)).trace ≤ 4 ∧
    totalSleep (verifyLoop failOracle (verifyClient cfgW) (List.range 5)).trace ≤ 12 ∧
    readCount (verifyLoop failOracle (verifyClient cfgW) (List.range 5)).trace ≤ 5 ∧
    (verifyLoop failOracle (verifyClient cfgW) (List.range 5)).returnValue = true :=
  ⟨(C10_sleep_discipline failOracle (verifyClient cfgW)).1,
    (C10_sleep_discipline failOracle (verifyClient cfgW)).2.2.1,
    (C10_sleep_discipline failOracle (verifyClient cfgW)).2.2.2.1,
    (C10_sleep_discipline failOracle (verifyClient cfgW)).2.2.2.2.1⟩

/-- C6: for every missing or incomplete configuration input — an
absent/unreadable file, or a file lacking the service URL, any of the
credentials, or the project identifier — the run fails with a
`ConfigError` before any network call: the script run aborts in the
configuration load and its trace holds zero network calls. -/
theorem C6_config_failure_before_network
    (pub sec : Option (List (String × String)))
    (post : PostOracle) (oracle : QueryOracle)
    (h : pub = none ∨ sec = none ∨
      (∃ p, pub = some p ∧ p.lookup "SUPABASE_URL" = none) ∨
      (∃ s, sec = some s ∧
        (s.lookup "SUPABASE_SERVICE_KEY" = none ∨
          s.lookup "SUPABASE_ACCESS_TOKEN" = none ∨
          s.lookup "SUPABASE_PROJECT_REF" = none))) :
    (∃ e, scriptRun pub sec post oracle = Except.error e) ∧
    networkCalls (scriptTrace (scriptRun pub sec post oracle)) = 0 := by
  have hload : ∃ e, loadConfig pub sec = Except.error e := by
    rcases h with rfl | rfl | ⟨p, rfl, hu⟩ | ⟨s, rfl, hk⟩
    · exact ⟨_, rfl⟩
    · cases pub with
      | none => exact ⟨_, rfl⟩
      | some p => exact ⟨_, rfl⟩
    · cases sec with
      | none => exact ⟨_, rfl⟩
      | some s =>
        exact ⟨ConfigError.keyMissing "SUPABASE_URL", by simp [loadConfig, hu]⟩
    · cases pub with
      | none => exact ⟨_, rfl⟩
      | some p =>
        cases hu : p.lookup "SUPABASE_URL" with
        | none =>
          exact ⟨ConfigError.keyMissing "SUPABASE_URL", by simp [loadConfig, hu]⟩
        | some url =>
          rcases hk with hk | hk | hk
          · exact ⟨ConfigError.keyMissing "SUPABASE_SERVICE_KEY",
              by simp [loadConfig, hu, hk]⟩
          · cases hsk : s.lookup "SUPABASE_SERVICE_KEY" with
            | none => exact ⟨ConfigError.keyMissing "SUPABASE_SERVICE_KEY",
                by simp [loadConfig, hu, hsk]⟩
            | some svc => exact ⟨ConfigError.keyMissing "SUPABASE_ACCESS_TOKEN",
                by simp [loadConfig, hu, hsk, hk]⟩
          · cases hsk : s.lookup "SUPABASE_SERVICE_KEY" with
            | none => exact ⟨ConfigError.keyMissing "SUPABASE_SERVICE_KEY",
                by simp [loadConfig, hu, hsk]⟩
            | some svc =>
              cases hat : s.lookup "SUPABASE_ACCESS_TOKEN" with
              | none => exact ⟨ConfigError.keyMissing "SUPABASE_ACCESS_TOKEN",
                  by simp [loadConfig, hu, hsk, hat]⟩
              | some tok => exact ⟨ConfigError.keyMissing "SUPABASE_PROJECT_REF",
                  by simp [loadConfig, hu, hsk, hat, hk]⟩
  obtain ⟨e, he⟩ := hload
  refine ⟨⟨e, ?_⟩, ?_⟩ <;>
    simp [scriptRun, he, scriptTrace, networkCalls, Except.map]

/-- Witness for C6: a secret file that lacks every credential. -/
theorem C6_config_failure_before_network_witness :
    (∃ e, scriptRun (some [("SUPABASE_URL", "u")]) (some []) post200 okOracle =
      Except.error e) ∧
    networkCalls (scriptTrace
      (scriptRun (some [("SUPABASE_URL", "u")]) (some []) post200 okOracle)) = 0 :=
  C6_config_failure_before_network (some [("SUPABASE_URL", "u")]) (some [])
    post200 okOracle
    (Or.inr (Or.inr (Or.inr ⟨[], rfl, Or.inl rfl⟩)))

/-- The builder chain of the first smoke query assembles exactly
`pageViewsRequest` on the given client. -/
theorem smoke_builder_page_views (c : Client) :
    ((c.table "page_views").select "*" none).limit 5 =
      (⟨c, pageViewsRequest⟩ : RequestBuilder) := rfl

/-- The builder chain of the second smoke query assembles exactly
`sentenceEmbeddingsRequest` on the given client. -/
theorem smoke_builder_sentence_embeddings (c : Client) :
    ((c.table "sentence_embeddings").select "*" none).limit 5 =
      (⟨c, sentenceEmbeddingsRequest⟩ : RequestBuilder) := rfl

/-- C8: under the anonymous credential the smoke-query demo issues one
limit-5 read against each of the two tables; when the query layer
returns 5 rows for `page_views` and 0 rows for `sentence_embeddings`,
it prints those counts — nonzero for the first, exactly zero for the
second — raising no exception. -/
theorem C8_smoke_query (url anonKey : String)
    (oracle : Client → QueryRequest → Except String QueryResponse)
    (r1 r2 : QueryResponse)
    (h1 : oracle (create_client url anonKey) pageViewsRequest = Except.ok r1)
    (h2 : oracle (create_client url anonKey) sentenceEmbeddingsRequest =
      Except.ok r2)
    (hlen1 : r1.data.length = 5) (hlen2 : r2.data.length = 0) :
    (query_tables_run url anonKey oracle).2 =
      Except.ok (r1.data.length, r2.data.length) ∧
    r1.data.length ≠ 0 ∧
    r2.data.length = 0 ∧
    (query_tables_run url anonKey oracle).1 =
      [Event.read anonKey pageViewsRequest,
        Event.read anonKey sentenceEmbeddingsRequest] ∧
    pageViewsRequest.limitN = some 5 ∧
    sentenceEmbeddingsRequest.limitN = some 5 := by
  simp only [create_client] at h1 h2
  refine ⟨?_, by omega, hlen2, ?_, rfl, rfl⟩ <;>
    simp [query_tables_run, smoke_builder_page_views,
      smoke_builder_sentence_embeddings, h1, h2, create_client]

/-- Witness for C8 with a stub query layer returning 5 rows for
`page_views` and none for `sentence_embeddings`. -/
theorem C8_smoke_query_witness :
    (query_tables_run "https://example.supabase.co" "anon-key" smokeOracle).2 =
      Except.ok ((smokeRows).length, ([] : List Row).length) ∧
    (smokeRows).length ≠ 0 ∧
    ([] : List Row).length = 0 ∧
    (query_tables_run "https://example.supabase.co" "anon-key" smokeOracle).1 =
      [Event.read "anon-key" pageViewsRequest,
        Event.read "anon-key" sentenceEmbeddingsRequest] ∧
    pageViewsRequest.limitN = some 5 ∧
    sentenceEmbeddingsRequest.limitN = some 5 :=
  C8_smoke_query "https://example.supabase.co" "anon-key" smokeOracle
    ⟨smokeRows, none⟩ ⟨[], none⟩ rfl rfl rfl rfl

end ConferenceRag
